import Mathlib

/-!
# BLE central decision core — verification of the spec against `src/main.c`

This development shallowly embeds the discovery-filter / connection-pool /
lifecycle state machine of the BLE central application (`src/main.c`).

Modelling conventions:
* A connection slot (`struct bt_conn *conns[i]`) is an `Option Nat`:
  `none` is the `NULL` ("Empty") slot, `some h` a slot holding connection
  object `h` (the C pointer value, abstracted to a natural number).
* The host BLE stack is the environment.  Its answers to the requests the
  core issues (`bt_le_scan_stop`, `bt_conn_le_create`, `bt_le_scan_start`)
  are supplied as explicit parameters (`Env`), so every theorem quantifies
  over the stack's behaviour; `err = 0` means the request was accepted.
* Each event handler returns the new state together with the list of
  externally observable actions (log lines and host-stack requests) it
  performed, in program order.  The handlers are total functions: no path
  panics, asserts or throws.
-/

namespace BleCentral

/-- `MAX_CONNECTIONS` from main.c line 34. -/
def MAX_CONNECTIONS : Nat := 6

/-- Advertising-data type code `BT_DATA_NAME_COMPLETE` (0x09). -/
def BT_DATA_NAME_COMPLETE : Nat := 9

/-- `BT_GAP_ADV_TYPE_ADV_IND` (connectable undirected advertising, 0x00). -/
def BT_GAP_ADV_TYPE_ADV_IND : Nat := 0

/-- `BT_GAP_ADV_TYPE_ADV_DIRECT_IND` (connectable directed advertising, 0x01). -/
def BT_GAP_ADV_TYPE_ADV_DIRECT_IND : Nat := 1

/-- One advertising-data field, as handed to the `bt_data_parse` callback:
a type code and the field's payload bytes (`data`, of length `data_len`). -/
structure BtData where
  type : Nat
  data : List Nat
deriving DecidableEq, Repr

/-- The byte content of the C string literal `"DXC"` (main.c line 58),
without its terminating NUL. -/
def desired_name : List Nat := [68, 88, 67]

/-- C `strncmp(s1, s2, n)` on byte sequences.  A list models the readable
bytes of the buffer; reading past the end of a list behaves as reading a
NUL, which is only exercised where the C buffer is in fact NUL-terminated
(the target name literal). -/
def strncmp : Nat → List Nat → List Nat → Int
  | 0, _, _ => 0
  | n + 1, s1, s2 =>
    let c1 := s1.headD 0
    let c2 := s2.headD 0
    if c1 ≠ c2 then (c1 : Int) - (c2 : Int)
    else if c1 = 0 then 0
    else strncmp n s1.tail s2.tail

/-- The `bt_data_parse` callback of main.c lines 40–51: returns `false`
("stop parsing, name found") when the field is a complete local name whose
first `data_len` bytes `strncmp`-match the target name, `true` ("continue")
otherwise.  Note the C code passes `data->data_len` — the *advertised*
name's length — as the comparison length. -/
def device_name_found (d : BtData) : Bool :=
  if d.type = BT_DATA_NAME_COMPLETE then
    if strncmp d.data.length (desired_name ++ [0]) d.data = 0 then false
    else true
  else true

/-- The result of `bt_data_parse(ad, device_name_found, "DXC")` at main.c
line 66: `true` iff some field made the callback return `false` (the parse
was stopped, i.e. the parse call returned zero, "name found" in the
return-code convention the call site tests). -/
def name_match : List BtData → Bool
  | [] => false
  | d :: rest => if device_name_found d then name_match rest else true

/-- Externally observable actions of the core, in program order: log lines
(`printk`) and requests issued to the host stack. -/
inductive Action where
  | logDeviceFound (addr : Nat) (rssi : Int)
  | scanStopReq
  | connCreateReq (addr : Nat) (slot : Nat)
  | logCreateFailed (addr : Nat) (err : Int)
  | scanStartReq
  | logScanStartFailed (err : Int)
  | logScanStarted
  | logNoSlots
  | logConnected (handle : Nat)
  | logConnectFailed (handle : Nat) (err : Nat)
  | logDisconnected (handle : Nat) (reason : Nat)
deriving DecidableEq, Repr

/-- The core's mutable state: the `conns` array (main.c line 37) and the
scan state of the controller (`Scanning` = `true`, `Idle` = `false`). -/
structure SysState where
  conns : List (Option Nat)
  scanning : Bool
deriving DecidableEq, Repr

/-- Host-stack responses consumed while one discovery event is processed:
the results of `bt_le_scan_stop`, `bt_conn_le_create` (and the connection
object the latter stores through its out-parameter on success), and of any
`bt_le_scan_start` issued on a failure path. -/
structure Env where
  scanStopErr : Int
  createErr : Int
  newHandle : Nat
  scanStartErr : Int
deriving DecidableEq, Repr

/-- `start_scan` of main.c lines 100–112: requests `bt_le_scan_start`; on
success the system is scanning, on failure the scan state is whatever it
already was (the stack rejected the request) and the failure is logged. -/
def start_scan (s : SysState) (err : Int) : SysState × List Action :=
  if err ≠ 0 then (s, [Action.scanStartReq, Action.logScanStartFailed err])
  else ({ s with scanning := true }, [Action.scanStartReq, Action.logScanStarted])

/-- The slot-acquisition loop of main.c lines 84–93: linear scan for the
first `NULL` slot.  Returns `none` when every slot is occupied; otherwise
`some (l, i)` where `i` is the index of the first empty slot and `l` is the
array with connection object `h` stored into slot `i` (what
`bt_conn_le_create` writes through `&conns[i]` on success). -/
def tryCreate (h : Nat) : List (Option Nat) → Option (List (Option Nat) × Nat)
  | [] => none
  | none :: rest => some (some h :: rest, 0)
  | some c :: rest =>
    match tryCreate h rest with
    | none => none
    | some (l, i) => some (some c :: l, i + 1)

/-- `device_found` of main.c lines 54–97.  Early-return structure of the C
code, guard by guard: advertising-type gate, name filter, "Device found"
log, RSSI gate, `bt_le_scan_stop`, then the slot loop issuing
`bt_conn_le_create` into the first empty slot (resuming the scan if the
creation fails), or the "no slots" log plus scan resume when the pool is
full. -/
def device_found (s : SysState) (addr : Nat) (rssi : Int) (ty : Nat)
    (ad : List BtData) (env : Env) : SysState × List Action :=
  if ty ≠ BT_GAP_ADV_TYPE_ADV_IND ∧ ty ≠ BT_GAP_ADV_TYPE_ADV_DIRECT_IND then (s, [])
  else if name_match ad = false then (s, [])
  else if rssi < -50 then (s, [Action.logDeviceFound addr rssi])
  else if env.scanStopErr ≠ 0 then (s, [Action.logDeviceFound addr rssi, Action.scanStopReq])
  else
    match tryCreate env.newHandle s.conns with
    | some (l, i) =>
      if env.createErr ≠ 0 then
        ((start_scan { s with scanning := false } env.scanStartErr).1,
          [Action.logDeviceFound addr rssi, Action.scanStopReq,
            Action.connCreateReq addr i, Action.logCreateFailed addr env.createErr]
            ++ (start_scan { s with scanning := false } env.scanStartErr).2)
      else
        ({ conns := l, scanning := false },
          [Action.logDeviceFound addr rssi, Action.scanStopReq, Action.connCreateReq addr i])
    | none =>
      ((start_scan { s with scanning := false } env.scanStartErr).1,
        [Action.logDeviceFound addr rssi, Action.scanStopReq, Action.logNoSlots]
          ++ (start_scan { s with scanning := false } env.scanStartErr).2)

/-- The release loop shared by `connected` (failure branch, main.c lines
123–129) and `disconnected` (lines 145–151): reset the first slot holding
the given connection object to `NULL` (the loop `break`s after the first
match), leaving every other slot untouched; a no-op when no slot holds it. -/
def releaseByHandle (h : Nat) : List (Option Nat) → List (Option Nat)
  | [] => []
  | c :: rest => if c = some h then none :: rest else c :: releaseByHandle h rest

/-- `connected` of main.c lines 115–135, for the connection object `h` and
HCI error code `err`.  On `err ≠ 0` the slot holding `h` (if any) is
released and the scan restarted (`scanStartErr` is the stack's answer to
that restart); on success (`err = 0`) only a log line is emitted. -/
def connected (s : SysState) (h : Nat) (err : Nat) (scanStartErr : Int) :
    SysState × List Action :=
  if err ≠ 0 then
    ((start_scan { s with conns := releaseByHandle h s.conns } scanStartErr).1,
      Action.logConnectFailed h err
        :: (start_scan { s with conns := releaseByHandle h s.conns } scanStartErr).2)
  else (s, [Action.logConnected h])

/-- `disconnected` of main.c lines 138–154: release the slot holding `h`
(if any) and restart scanning unconditionally. -/
def disconnected (s : SysState) (h : Nat) (reason : Nat) (scanStartErr : Int) :
    SysState × List Action :=
  ((start_scan { s with conns := releaseByHandle h s.conns } scanStartErr).1,
    Action.logDisconnected h reason
      :: (start_scan { s with conns := releaseByHandle h s.conns } scanStartErr).2)

/-- The connection objects currently held in the pool, in slot order. -/
def held (cs : List (Option Nat)) : List Nat := cs.filterMap id

/-- The state right after startup (`main` → `bt_enable` → `start_scan`):
all `MAX_CONNECTIONS` slots `NULL`, scanning. -/
def initState : SysState :=
  { conns := List.replicate MAX_CONNECTIONS none, scanning := true }

/-- One event delivered by the host stack, processed by the corresponding
handler.  The only environment assumption is on `adv`: a connection object
returned by `bt_conn_le_create` is a freshly allocated reference, so its
pointer differs from every pointer still stored (and referenced) in the
pool. -/
inductive Step : SysState → SysState → Prop where
  | adv (s : SysState) (addr : Nat) (rssi : Int) (ty : Nat) (ad : List BtData)
      (env : Env) (hfresh : env.newHandle ∉ held s.conns) :
      Step s (device_found s addr rssi ty ad env).1
  | connResult (s : SysState) (h err : Nat) (e : Int) :
      Step s (connected s h err e).1
  | disc (s : SysState) (h reason : Nat) (e : Int) :
      Step s (disconnected s h reason e).1

/-- States reachable from startup by any sequence of discovery,
connect-result and disconnect events. -/
def Reachable (s : SysState) : Prop :=
  Relation.ReflTransGen Step initState s

/-! ## Basic lemmas about the embedded operations -/

lemma start_scan_conns (s : SysState) (e : Int) : (start_scan s e).1.conns = s.conns := by
  unfold start_scan
  split <;> rfl

lemma start_scan_scanning_of_ok (s : SysState) : (start_scan s 0).1.scanning = true := by
  unfold start_scan
  simp

lemma scanStartReq_mem_start_scan (s : SysState) (e : Int) :
    Action.scanStartReq ∈ (start_scan s e).2 := by
  unfold start_scan
  split <;> simp

lemma releaseByHandle_of_not_held (h : Nat) (cs : List (Option Nat))
    (hn : some h ∉ cs) : releaseByHandle h cs = cs := by
  induction cs with
  | nil => rfl
  | cons c rest ih =>
    have h1 : ¬ c = some h := fun hc => hn (hc ▸ List.mem_cons_self c rest)
    have h2 : some h ∉ rest := fun hm => hn (List.mem_cons_of_mem _ hm)
    simp [releaseByHandle, h1, ih h2]

lemma tryCreate_eq_none (h : Nat) (cs : List (Option Nat)) (hn : none ∉ cs) :
    tryCreate h cs = none := by
  induction cs with
  | nil => rfl
  | cons c rest ih =>
    rcases c with _ | c'
    · exact absurd (List.mem_cons_self _ _) hn
    · simp [tryCreate, ih (fun hm => hn (List.mem_cons_of_mem _ hm))]

lemma tryCreate_isSome (h : Nat) (cs : List (Option Nat)) (hm : none ∈ cs) :
    ∃ l i, tryCreate h cs = some (l, i) := by
  induction cs with
  | nil => cases hm
  | cons c rest ih =>
    rcases c with _ | c'
    · exact ⟨some h :: rest, 0, rfl⟩
    · have hm' : none ∈ rest := by
        rcases List.mem_cons.mp hm with h1 | h1
        · cases h1
        · exact h1
      obtain ⟨l, i, hl⟩ := ih hm'
      exact ⟨some c' :: l, i + 1, by simp [tryCreate, hl]⟩

/-- The slot loop finds the first empty slot and only writes there:
`i` is the least index holding `NULL` and the updated array is `cs` with
slot `i` set. -/
lemma tryCreate_spec (h : Nat) (cs : List (Option Nat)) :
    ∀ l i, tryCreate h cs = some (l, i) →
      cs[i]? = some none ∧ (∀ j, j < i → cs[j]? ≠ some none) ∧
      l = cs.set i (some h) := by
  induction cs with
  | nil => intro l i ht; simp [tryCreate] at ht
  | cons c rest ih =>
    intro l i ht
    rcases c with _ | c'
    · simp [tryCreate] at ht
      obtain ⟨hl, hi⟩ := ht
      subst hl; subst hi
      refine ⟨by simp, by omega, by simp⟩
    · rcases htc : tryCreate h rest with _ | ⟨l', i'⟩ <;> rw [tryCreate, htc] at ht
      · simp at ht
      · simp at ht
        obtain ⟨hl, hi⟩ := ht
        subst hl; subst hi
        obtain ⟨h1, h2, h3⟩ := ih l' i' htc
        refine ⟨by simpa using h1, ?_, by simp [h3]⟩
        intro j hj
        cases j with
        | zero => simp
        | succ j' => simpa using h2 j' (by omega)

lemma connected_conns_cases (s : SysState) (h e : Nat) (se : Int) :
    (connected s h e se).1.conns = s.conns ∨
    (connected s h e se).1.conns = releaseByHandle h s.conns := by
  unfold connected
  split
  · right; rw [start_scan_conns]
  · left; rfl

lemma disconnected_conns (s : SysState) (h reason : Nat) (se : Int) :
    (disconnected s h reason se).1.conns = releaseByHandle h s.conns := by
  unfold disconnected
  rw [start_scan_conns]

/-- Under the four accepting guards (connectable type, name match, strong
RSSI, scan stop accepted), `device_found` reduces to the slot loop. -/
lemma device_found_gates (s : SysState) (addr : Nat) (rssi : Int) (ty : Nat)
    (ad : List BtData) (env : Env)
    (hty : ty = BT_GAP_ADV_TYPE_ADV_IND ∨ ty = BT_GAP_ADV_TYPE_ADV_DIRECT_IND)
    (hname : name_match ad = true) (hrssi : ¬ rssi < -50)
    (hstop : env.scanStopErr = 0) :
    device_found s addr rssi ty ad env =
      match tryCreate env.newHandle s.conns with
      | some (l, i) =>
        if env.createErr ≠ 0 then
          ((start_scan { s with scanning := false } env.scanStartErr).1,
            [Action.logDeviceFound addr rssi, Action.scanStopReq,
              Action.connCreateReq addr i, Action.logCreateFailed addr env.createErr]
              ++ (start_scan { s with scanning := false } env.scanStartErr).2)
        else
          ({ conns := l, scanning := false },
            [Action.logDeviceFound addr rssi, Action.scanStopReq,
              Action.connCreateReq addr i])
      | none =>
        ((start_scan { s with scanning := false } env.scanStartErr).1,
          [Action.logDeviceFound addr rssi, Action.scanStopReq, Action.logNoSlots]
            ++ (start_scan { s with scanning := false } env.scanStartErr).2) := by
  unfold device_found
  rw [if_neg (by rcases hty with h | h <;> simp [h]), if_neg (by simp [hname]),
    if_neg hrssi, if_neg (by simp [hstop])]

lemma device_found_create_ok (s : SysState) (addr : Nat) (rssi : Int) (ty : Nat)
    (ad : List BtData) (env : Env)
    (hty : ty = BT_GAP_ADV_TYPE_ADV_IND ∨ ty = BT_GAP_ADV_TYPE_ADV_DIRECT_IND)
    (hname : name_match ad = true) (hrssi : ¬ rssi < -50)
    (hstop : env.scanStopErr = 0) (l : List (Option Nat)) (i : Nat)
    (htc : tryCreate env.newHandle s.conns = some (l, i))
    (hce : env.createErr = 0) :
    device_found s addr rssi ty ad env =
      ({ conns := l, scanning := false },
        [Action.logDeviceFound addr rssi, Action.scanStopReq,
          Action.connCreateReq addr i]) := by
  rw [device_found_gates s addr rssi ty ad env hty hname hrssi hstop, htc]
  simp [hce]

lemma device_found_create_fail (s : SysState) (addr : Nat) (rssi : Int) (ty : Nat)
    (ad : List BtData) (env : Env)
    (hty : ty = BT_GAP_ADV_TYPE_ADV_IND ∨ ty = BT_GAP_ADV_TYPE_ADV_DIRECT_IND)
    (hname : name_match ad = true) (hrssi : ¬ rssi < -50)
    (hstop : env.scanStopErr = 0) (l : List (Option Nat)) (i : Nat)
    (htc : tryCreate env.newHandle s.conns = some (l, i))
    (hce : env.createErr ≠ 0) :
    device_found s addr rssi ty ad env =
      ((start_scan { s with scanning := false } env.scanStartErr).1,
        [Action.logDeviceFound addr rssi, Action.scanStopReq,
          Action.connCreateReq addr i, Action.logCreateFailed addr env.createErr]
          ++ (start_scan { s with scanning := false } env.scanStartErr).2) := by
  rw [device_found_gates s addr rssi ty ad env hty hname hrssi hstop, htc]
  simp [hce]

lemma device_found_pool_full (s : SysState) (addr : Nat) (rssi : Int) (ty : Nat)
    (ad : List BtData) (env : Env)
    (hty : ty = BT_GAP_ADV_TYPE_ADV_IND ∨ ty = BT_GAP_ADV_TYPE_ADV_DIRECT_IND)
    (hname : name_match ad = true) (hrssi : ¬ rssi < -50)
    (hstop : env.scanStopErr = 0)
    (htc : tryCreate env.newHandle s.conns = none) :
    device_found s addr rssi ty ad env =
      ((start_scan { s with scanning := false } env.scanStartErr).1,
        [Action.logDeviceFound addr rssi, Action.scanStopReq, Action.logNoSlots]
          ++ (start_scan { s with scanning := false } env.scanStartErr).2) := by
  rw [device_found_gates s addr rssi ty ad env hty hname hrssi hstop, htc]

lemma device_found_stop_fail (s : SysState) (addr : Nat) (rssi : Int) (ty : Nat)
    (ad : List BtData) (env : Env)
    (hty : ty = BT_GAP_ADV_TYPE_ADV_IND ∨ ty = BT_GAP_ADV_TYPE_ADV_DIRECT_IND)
    (hname : name_match ad = true) (hrssi : ¬ rssi < -50)
    (hstop : env.scanStopErr ≠ 0) :
    device_found s addr rssi ty ad env =
      (s, [Action.logDeviceFound addr rssi, Action.scanStopReq]) := by
  unfold device_found
  rw [if_neg (by rcases hty with h | h <;> simp [h]), if_neg (by simp [hname]),
    if_neg hrssi, if_pos hstop]

/-! ## Claim theorems -/

/-- C1 (code bug): the name filter of `device_name_found` compares with the
*advertised* length, so an advertised complete name `"DX"` — a strict
truncation of the target `"DXC"` — is accepted, while the claim requires an
exact-length match.  (The exact name `"DXC"` is accepted and `"DXCX"` is,
as it happens, rejected because of the target's NUL terminator.) -/
theorem name_match_accepts_truncated_target :
    name_match [⟨BT_DATA_NAME_COMPLETE, [68, 88]⟩] = true ∧
    name_match [⟨BT_DATA_NAME_COMPLETE, desired_name⟩] = true ∧
    name_match [⟨BT_DATA_NAME_COMPLETE, [68, 88, 67, 88]⟩] = false := by
  decide

/-- C2: a discovery event whose advertisement is non-connectable, or whose
data does not pass the name filter, changes neither the pool nor the scan
state (and emits no output at all). -/
theorem device_found_rejected_frame (s : SysState) (addr : Nat) (rssi : Int)
    (ty : Nat) (ad : List BtData) (env : Env)
    (h : (ty ≠ BT_GAP_ADV_TYPE_ADV_IND ∧ ty ≠ BT_GAP_ADV_TYPE_ADV_DIRECT_IND) ∨
      name_match ad = false) :
    device_found s addr rssi ty ad env = (s, []) := by
  unfold device_found
  rcases h with h | h
  · rw [if_pos h]
  · split <;> rfl

theorem device_found_rejected_frame_witness :
    device_found initState 0 0 2 [] ⟨0, 0, 0, 0⟩ = (initState, []) :=
  device_found_rejected_frame initState 0 0 2 [] ⟨0, 0, 0, 0⟩ (Or.inl (by decide))

/-- C3: a connectable advertisement that passes the name filter but whose
RSSI is below -50 is logged as found and then dropped: pool and scan state
are unchanged.  And the RSSI gate is only reached after a name match: when
the filter fails, the event is dropped without output for every RSSI. -/
theorem device_found_weak_rssi (s : SysState) (addr : Nat) (ty : Nat)
    (ad : List BtData) (env : Env) :
    (∀ rssi : Int, name_match ad = true →
      (ty = BT_GAP_ADV_TYPE_ADV_IND ∨ ty = BT_GAP_ADV_TYPE_ADV_DIRECT_IND) →
      rssi < -50 →
      device_found s addr rssi ty ad env = (s, [Action.logDeviceFound addr rssi])) ∧
    (∀ rssi : Int, name_match ad = false →
      device_found s addr rssi ty ad env = (s, [])) := by
  constructor
  · intro rssi hname hty hrssi
    unfold device_found
    rw [if_neg (by rcases hty with h | h <;> simp [h]), if_neg (by simp [hname]),
      if_pos hrssi]
  · intro rssi hname
    exact device_found_rejected_frame s addr rssi ty ad env (Or.inr hname)

theorem device_found_weak_rssi_witness :
    device_found initState 5 (-60) 0 [⟨9, [68, 88, 67]⟩] ⟨0, 0, 0, 0⟩ =
      (initState, [Action.logDeviceFound 5 (-60)]) :=
  (device_found_weak_rssi initState 5 0 [⟨9, [68, 88, 67]⟩] ⟨0, 0, 0, 0⟩).1
    (-60) (by decide) (by decide) (by decide)

lemma scanStop_before_connCreate_aux (x : Action) (t : List Action)
    (hx : ∀ a i, x ≠ Action.connCreateReq a i) :
    ∀ l1 l2 a i, x :: Action.scanStopReq :: t = l1 ++ Action.connCreateReq a i :: l2 →
      Action.scanStopReq ∈ l1 := by
  intro l1 l2 a i heq
  rcases l1 with _ | ⟨y, _ | ⟨z, l1'⟩⟩
  · simp at heq
    exact absurd heq.1 (hx a i)
  · simp at heq
  · simp only [List.cons_append, List.cons.injEq] at heq
    rw [heq.2.1]
    exact List.mem_cons_of_mem _ (List.mem_cons_self _ _)

/-- C4: for every accepted advertisement (connectable, name match, RSSI at
or above -50), any `bt_conn_le_create` request in the emitted action
sequence is preceded by the `bt_le_scan_stop` request; and when the scan
stop is rejected by the stack, the handler returns with no connection
attempt and the whole state (pool included) unchanged. -/
theorem device_found_stop_before_connect (s : SysState) (addr : Nat) (rssi : Int)
    (ty : Nat) (ad : List BtData) (env : Env)
    (hty : ty = BT_GAP_ADV_TYPE_ADV_IND ∨ ty = BT_GAP_ADV_TYPE_ADV_DIRECT_IND)
    (hname : name_match ad = true) (hrssi : ¬ rssi < -50) :
    (∀ l1 l2 a i,
      (device_found s addr rssi ty ad env).2 = l1 ++ Action.connCreateReq a i :: l2 →
      Action.scanStopReq ∈ l1) ∧
    (env.scanStopErr ≠ 0 →
      device_found s addr rssi ty ad env =
        (s, [Action.logDeviceFound addr rssi, Action.scanStopReq])) := by
  have hlog : ∀ a i, Action.logDeviceFound addr rssi ≠ Action.connCreateReq a i := by
    intro a i h; cases h
  constructor
  · intro l1 l2 a i heq
    by_cases hstop : env.scanStopErr = 0
    · rcases htc : tryCreate env.newHandle s.conns with _ | ⟨l, j⟩
      · rw [device_found_pool_full s addr rssi ty ad env hty hname hrssi hstop htc] at heq
        exact scanStop_before_connCreate_aux _ _ hlog l1 l2 a i (by simpa using heq)
      · by_cases hce : env.createErr = 0
        · rw [device_found_create_ok s addr rssi ty ad env hty hname hrssi hstop l j htc hce]
            at heq
          exact scanStop_before_connCreate_aux _ _ hlog l1 l2 a i (by simpa using heq)
        · rw [device_found_create_fail s addr rssi ty ad env hty hname hrssi hstop l j htc hce]
            at heq
          exact scanStop_before_connCreate_aux _ _ hlog l1 l2 a i (by simpa using heq)
    · rw [device_found_stop_fail s addr rssi ty ad env hty hname hrssi hstop] at heq
      exact scanStop_before_connCreate_aux _ _ hlog l1 l2 a i (by simpa using heq)
  · intro hstop
    exact device_found_stop_fail s addr rssi ty ad env hty hname hrssi hstop

theorem device_found_stop_before_connect_witness :
    device_found initState 5 (-40) 0 [⟨9, [68, 88, 67]⟩] ⟨1, 0, 7, 0⟩ =
      (initState, [Action.logDeviceFound 5 (-40), Action.scanStopReq]) :=
  (device_found_stop_before_connect initState 5 (-40) 0 [⟨9, [68, 88, 67]⟩] ⟨1, 0, 7, 0⟩
    (by decide) (by decide) (by decide)).2 (by decide)

/-- C5: an accepted advertisement processed with some empty slot issues the
connection attempt into exactly the first empty slot `i` of the linear
scan: when the stack accepts the creation, slot `i` alone changes (from
`NULL` to the new connection object) and the scan is left stopped.  With
no empty slot, the handler logs the no-slots message, leaves every slot
unchanged, and requests a scan restart (scanning again whenever the stack
accepts that request). -/
theorem device_found_slot_acquisition (s : SysState) (addr : Nat) (rssi : Int)
    (ty : Nat) (ad : List BtData) (env : Env)
    (hty : ty = BT_GAP_ADV_TYPE_ADV_IND ∨ ty = BT_GAP_ADV_TYPE_ADV_DIRECT_IND)
    (hname : name_match ad = true) (hrssi : ¬ rssi < -50)
    (hstop : env.scanStopErr = 0) :
    (none ∈ s.conns →
      ∃ i, s.conns[i]? = some none ∧ (∀ j, j < i → s.conns[j]? ≠ some none) ∧
        Action.connCreateReq addr i ∈ (device_found s addr rssi ty ad env).2 ∧
        (env.createErr = 0 →
          device_found s addr rssi ty ad env =
            ({ conns := s.conns.set i (some env.newHandle), scanning := false },
              [Action.logDeviceFound addr rssi, Action.scanStopReq,
                Action.connCreateReq addr i]))) ∧
    (none ∉ s.conns →
      (device_found s addr rssi ty ad env).1.conns = s.conns ∧
      Action.logNoSlots ∈ (device_found s addr rssi ty ad env).2 ∧
      Action.scanStartReq ∈ (device_found s addr rssi ty ad env).2 ∧
      (env.scanStartErr = 0 → (device_found s addr rssi ty ad env).1.scanning = true)) := by
  constructor
  · intro hm
    obtain ⟨l, i, htc⟩ := tryCreate_isSome env.newHandle s.conns hm
    obtain ⟨h1, h2, h3⟩ := tryCreate_spec env.newHandle s.conns l i htc
    refine ⟨i, h1, h2, ?_, ?_⟩
    · by_cases hce : env.createErr = 0
      · rw [device_found_create_ok s addr rssi ty ad env hty hname hrssi hstop l i htc hce]
        simp
      · rw [device_found_create_fail s addr rssi ty ad env hty hname hrssi hstop l i htc hce]
        simp
    · intro hce
      rw [device_found_create_ok s addr rssi ty ad env hty hname hrssi hstop l i htc hce, h3]
  · intro hm
    have htc := tryCreate_eq_none env.newHandle s.conns hm
    rw [device_found_pool_full s addr rssi ty ad env hty hname hrssi hstop htc]
    refine ⟨start_scan_conns _ _, by simp, ?_, ?_⟩
    · simp [scanStartReq_mem_start_scan]
    · intro h0
      rw [h0]
      exact start_scan_scanning_of_ok _

theorem device_found_slot_acquisition_witness :
    device_found ⟨[some 3, none, none, none, none, none], true⟩ 5 (-40) 0
        [⟨9, [68, 88, 67]⟩] ⟨0, 0, 7, 0⟩ =
      (⟨[some 3, some 7, none, none, none, none], false⟩,
        [Action.logDeviceFound 5 (-40), Action.scanStopReq,
          Action.connCreateReq 5 1]) := by
  have h := ((device_found_slot_acquisition ⟨[some 3, none, none, none, none, none], true⟩
    5 (-40) 0 [⟨9, [68, 88, 67]⟩] ⟨0, 0, 7, 0⟩
    (by decide) (by decide) (by decide) (by decide)).1 (by decide))
  obtain ⟨i, h1, h2, _, h4⟩ := h
  have hi : i = 1 := by
    rcases i with _ | _ | i'
    · simp at h1
    · rfl
    · exact absurd
        (by decide :
          ({ conns := [some 3, none, none, none, none, none], scanning := true } :
            SysState).conns[1]? = some none)
        (h2 1 (by omega))
  rw [hi] at h4
  exact h4 (by decide)

/-- C9: when the stack rejects the `bt_conn_le_create` call for an accepted
advertisement (some slot empty, scan stop accepted), the reserved slot
stays `NULL` — the whole pool is unchanged — and a scan restart is
requested, scanning again whenever the stack accepts it.  The handler is a
total function returning only a state and log/request actions, so the
failure does not escape as an exception or panic. -/
theorem device_found_create_fail_recovers (s : SysState) (addr : Nat) (rssi : Int)
    (ty : Nat) (ad : List BtData) (env : Env)
    (hty : ty = BT_GAP_ADV_TYPE_ADV_IND ∨ ty = BT_GAP_ADV_TYPE_ADV_DIRECT_IND)
    (hname : name_match ad = true) (hrssi : ¬ rssi < -50)
    (hstop : env.scanStopErr = 0) (hce : env.createErr ≠ 0)
    (hslot : none ∈ s.conns) :
    (device_found s addr rssi ty ad env).1.conns = s.conns ∧
    Action.scanStartReq ∈ (device_found s addr rssi ty ad env).2 ∧
    (env.scanStartErr = 0 → (device_found s addr rssi ty ad env).1.scanning = true) := by
  obtain ⟨l, i, htc⟩ := tryCreate_isSome env.newHandle s.conns hslot
  rw [device_found_create_fail s addr rssi ty ad env hty hname hrssi hstop l i htc hce]
  refine ⟨start_scan_conns _ _, ?_, ?_⟩
  · simp [scanStartReq_mem_start_scan]
  · intro h0
    rw [h0]
    exact start_scan_scanning_of_ok _

theorem device_found_create_fail_recovers_witness :
    (device_found initState 5 (-40) 0 [⟨9, [68, 88, 67]⟩] ⟨0, -12, 7, 0⟩).1.conns =
      initState.conns ∧
    (device_found initState 5 (-40) 0 [⟨9, [68, 88, 67]⟩] ⟨0, -12, 7, 0⟩).1.scanning = true :=
  have h := device_found_create_fail_recovers initState 5 (-40) 0 [⟨9, [68, 88, 67]⟩]
    ⟨0, -12, 7, 0⟩ (by decide) (by decide) (by decide) (by decide) (by decide) (by decide)
  ⟨h.1, h.2.2 (by decide)⟩

lemma releaseByHandle_getElem (h : Nat) (cs : List (Option Nat)) :
    ∀ (i : Nat), cs[i]? = some (some h) →
      (∀ (j : Nat), j < cs.length → j ≠ i → cs[j]? ≠ some (some h)) →
      (releaseByHandle h cs)[i]? = some none ∧
      ∀ (j : Nat), j ≠ i → (releaseByHandle h cs)[j]? = cs[j]? := by
  induction cs with
  | nil => intro i hi _; simp at hi
  | cons c rest ih =>
    intro i hi huniq
    cases i with
    | zero =>
      have hc : c = some h := by simpa using hi
      subst hc
      refine ⟨by simp [releaseByHandle], ?_⟩
      intro j hj
      cases j with
      | zero => exact absurd rfl hj
      | succ j' => simp [releaseByHandle]
    | succ i' =>
      have hc : ¬ c = some h := by
        intro hc
        exact huniq 0 (by simp) (by omega) (by simpa using hc)
      have hi' : rest[i']? = some (some h) := by simpa using hi
      have huniq' : ∀ (j' : Nat), j' < rest.length → j' ≠ i' →
          rest[j']? ≠ some (some h) := by
        intro j' hl hj'
        have := huniq (j' + 1) (by simpa using Nat.succ_lt_succ hl) (by omega)
        simpa using this
      obtain ⟨g1, g2⟩ := ih i' hi' huniq'
      refine ⟨by simpa [releaseByHandle, hc] using g1, ?_⟩
      intro j hj
      cases j with
      | zero => simp [releaseByHandle, hc]
      | succ j' =>
        have := g2 j' (by omega)
        simpa [releaseByHandle, hc] using this

/-- C6: a connect-failure event (`err ≠ 0`) or a disconnect event for a
connection object held in slot `i` (and in no other slot) empties exactly
slot `i` and re-enters the `Scanning` state.  The scan-start response `0`
models the stack accepting the restart request (the request itself is
issued unconditionally; a rejected restart leaves the controller idle, per
the spec's error-handling section). -/
theorem release_held_slot (s : SysState) (hdl e reason i : Nat)
    (hi : s.conns[i]? = some (some hdl))
    (huniq : ∀ (j : Nat), j < s.conns.length → j ≠ i → s.conns[j]? ≠ some (some hdl))
    (he : e ≠ 0) :
    ((connected s hdl e 0).1.conns[i]? = some none ∧
      (∀ j, j ≠ i → (connected s hdl e 0).1.conns[j]? = s.conns[j]?) ∧
      (connected s hdl e 0).1.scanning = true) ∧
    ((disconnected s hdl reason 0).1.conns[i]? = some none ∧
      (∀ j, j ≠ i → (disconnected s hdl reason 0).1.conns[j]? = s.conns[j]?) ∧
      (disconnected s hdl reason 0).1.scanning = true) := by
  obtain ⟨g1, g2⟩ := releaseByHandle_getElem hdl s.conns i hi huniq
  have hc : (connected s hdl e 0).1.conns = releaseByHandle hdl s.conns := by
    unfold connected
    rw [if_pos he, start_scan_conns]
  have hcs : (connected s hdl e 0).1.scanning = true := by
    unfold connected
    rw [if_pos he]
    exact start_scan_scanning_of_ok _
  have hd : (disconnected s hdl reason 0).1.conns = releaseByHandle hdl s.conns :=
    disconnected_conns s hdl reason 0
  have hds : (disconnected s hdl reason 0).1.scanning = true := by
    unfold disconnected
    exact start_scan_scanning_of_ok _
  exact ⟨⟨by rw [hc]; exact g1, fun j hj => by rw [hc]; exact g2 j hj, hcs⟩,
    ⟨by rw [hd]; exact g1, fun j hj => by rw [hd]; exact g2 j hj, hds⟩⟩

theorem release_held_slot_witness :
    (connected ⟨[some 3, some 7, none, none, none, none], false⟩ 7 2 0).1.conns[1]? =
      some none ∧
    (connected ⟨[some 3, some 7, none, none, none, none], false⟩ 7 2 0).1.scanning = true ∧
    (disconnected ⟨[some 3, some 7, none, none, none, none], false⟩ 7 4 0).1.conns[1]? =
      some none ∧
    (disconnected ⟨[some 3, some 7, none, none, none, none], false⟩ 7 4 0).1.scanning = true :=
  have h := release_held_slot ⟨[some 3, some 7, none, none, none, none], false⟩ 7 2 4 1
    (by decide) (by decide) (by decide)
  ⟨h.1.1, h.1.2.2, h.2.1, h.2.2.2⟩

/-- C7: a connect-failure or disconnect event for a connection object held
by no slot leaves every slot unchanged; both handlers are total functions,
so the duplicate release is tolerated without any crash or fatal error. -/
theorem release_unknown_handle_noop (s : SysState) (h e reason : Nat) (se : Int)
    (hn : some h ∉ s.conns) :
    (connected s h e se).1.conns = s.conns ∧
    (disconnected s h reason se).1.conns = s.conns := by
  constructor
  · unfold connected
    split
    · rw [start_scan_conns]
      simp [releaseByHandle_of_not_held h s.conns hn]
    · rfl
  · unfold disconnected
    rw [start_scan_conns]
    simp [releaseByHandle_of_not_held h s.conns hn]

theorem release_unknown_handle_noop_witness :
    (connected ⟨[some 7, none, none, none, none, none], true⟩ 9 2 0).1.conns =
      [some 7, none, none, none, none, none] ∧
    (disconnected ⟨[some 7, none, none, none, none, none], true⟩ 9 3 0).1.conns =
      [some 7, none, none, none, none, none] :=
  release_unknown_handle_noop ⟨[some 7, none, none, none, none, none], true⟩ 9 2 3 0
    (by decide)

lemma held_cons_none (cs : List (Option Nat)) : held (none :: cs) = held cs := rfl

lemma held_cons_some (a : Nat) (cs : List (Option Nat)) :
    held (some a :: cs) = a :: held cs := rfl

lemma tryCreate_held_perm (h : Nat) (cs : List (Option Nat)) :
    ∀ l i, tryCreate h cs = some (l, i) → List.Perm (held l) (h :: held cs) := by
  induction cs with
  | nil => intro l i ht; simp [tryCreate] at ht
  | cons c rest ih =>
    intro l i ht
    rcases c with _ | c'
    · simp [tryCreate] at ht
      rw [← ht.1, held_cons_some, held_cons_none]
    · rcases htc : tryCreate h rest with _ | ⟨l', i'⟩ <;> rw [tryCreate, htc] at ht
      · simp at ht
      · simp at ht
        rw [← ht.1, held_cons_some, held_cons_some]
        exact ((ih l' i' htc).cons c').trans (List.Perm.swap h c' (held rest))

lemma releaseByHandle_held_sublist (h : Nat) (cs : List (Option Nat)) :
    List.Sublist (held (releaseByHandle h cs)) (held cs) := by
  induction cs with
  | nil => exact List.Sublist.refl _
  | cons c rest ih =>
    by_cases hc : c = some h
    · subst hc
      rw [releaseByHandle, if_pos rfl, held_cons_none, held_cons_some]
      exact List.Sublist.cons _ (List.Sublist.refl _)
    · rcases c with _ | c'
      · rw [releaseByHandle, if_neg hc, held_cons_none, held_cons_none]
        exact ih
      · rw [releaseByHandle, if_neg hc, held_cons_some, held_cons_some]
        exact List.Sublist.cons₂ _ ih

lemma releaseByHandle_length (h : Nat) (cs : List (Option Nat)) :
    (releaseByHandle h cs).length = cs.length := by
  induction cs with
  | nil => rfl
  | cons c rest ih =>
    rw [releaseByHandle]
    split <;> simp [ih]

/-- The pool after a discovery event: either untouched, or the array the
slot loop produced (first empty slot set to the created connection). -/
lemma device_found_conns_cases (s : SysState) (addr : Nat) (rssi : Int) (ty : Nat)
    (ad : List BtData) (env : Env) :
    (device_found s addr rssi ty ad env).1.conns = s.conns ∨
    ∃ l i, tryCreate env.newHandle s.conns = some (l, i) ∧
      (device_found s addr rssi ty ad env).1.conns = l := by
  unfold device_found
  split
  · exact Or.inl rfl
  split
  · exact Or.inl rfl
  split
  · exact Or.inl rfl
  split
  · exact Or.inl rfl
  split
  · rename_i l i heq
    split
    · left
      rw [start_scan_conns]
    · exact Or.inr ⟨l, i, heq, rfl⟩
  · left
    rw [start_scan_conns]

/-- The pool well-formedness invariant: the array keeps its compiled-in
size and no connection object sits in two slots. -/
def PoolInv (s : SysState) : Prop :=
  s.conns.length = MAX_CONNECTIONS ∧ (held s.conns).Nodup

lemma pool_inv_step {s s' : SysState} (hstep : Step s s') (hinv : PoolInv s) :
    PoolInv s' := by
  obtain ⟨hlen, hnd⟩ := hinv
  cases hstep with
  | adv addr rssi ty ad env hfresh =>
    rcases device_found_conns_cases s addr rssi ty ad env with hc | ⟨l, i, htc, hc⟩
    · exact ⟨by rw [hc]; exact hlen, by rw [hc]; exact hnd⟩
    · have hperm := tryCreate_held_perm env.newHandle s.conns l i htc
      have hset := (tryCreate_spec env.newHandle s.conns l i htc).2.2
      constructor
      · rw [hc, hset, List.length_set]
        exact hlen
      · rw [hc]
        exact (hperm.nodup_iff).mpr (List.nodup_cons.mpr ⟨hfresh, hnd⟩)
  | connResult h e se =>
    rcases connected_conns_cases s h e se with hc | hc
    · exact ⟨by rw [hc]; exact hlen, by rw [hc]; exact hnd⟩
    · constructor
      · rw [hc, releaseByHandle_length]
        exact hlen
      · rw [hc]
        exact hnd.sublist (releaseByHandle_held_sublist h s.conns)
  | disc h reason se =>
    have hc := disconnected_conns s h reason se
    constructor
    · rw [hc, releaseByHandle_length]
      exact hlen
    · rw [hc]
      exact hnd.sublist (releaseByHandle_held_sublist h s.conns)

lemma reachable_pool_inv (s : SysState) (hs : Reachable s) : PoolInv s := by
  induction hs with
  | refl => exact ⟨rfl, by decide⟩
  | tail _ hstep ih => exact pool_inv_step hstep ih

lemma mem_held_of_getElem (cs : List (Option Nat)) :
    ∀ (i : Nat) (h : Nat), cs[i]? = some (some h) → h ∈ held cs := by
  induction cs with
  | nil => intro i h hi; simp at hi
  | cons c rest ih =>
    intro i h hi
    cases i with
    | zero =>
      have hc : c = some h := by simpa using hi
      subst hc
      rw [held_cons_some]
      exact List.mem_cons_self _ _
    | succ i' =>
      have := ih i' h (by simpa using hi)
      rcases c with _ | c'
      · rw [held_cons_none]; exact this
      · rw [held_cons_some]; exact List.mem_cons_of_mem _ this

lemma held_nodup_distinct_slots (cs : List (Option Nat)) :
    (held cs).Nodup →
    ∀ (i j : Nat) (h : Nat), i < j → cs[i]? = some (some h) →
      cs[j]? ≠ some (some h) := by
  induction cs with
  | nil => intro _ i j h _ hi; simp at hi
  | cons c rest ih =>
    intro hnd i j h hij hi hj
    cases i with
    | zero =>
      have hc : c = some h := by simpa using hi
      subst hc
      cases j with
      | zero => omega
      | succ j' =>
        have hm : h ∈ held rest := mem_held_of_getElem rest j' h (by simpa using hj)
        rw [held_cons_some] at hnd
        exact (List.nodup_cons.mp hnd).1 hm
    | succ i' =>
      cases j with
      | zero => omega
      | succ j' =>
        have hnd' : (held rest).Nodup := by
          rcases c with _ | c'
          · rw [held_cons_none] at hnd; exact hnd
          · rw [held_cons_some] at hnd; exact (List.nodup_cons.mp hnd).2
        exact ih hnd' i' j' h (by omega) (by simpa using hi) (by simpa using hj)

/-- C8: in every state reachable from startup by discovery, connect-result
and disconnect events, at most `MAX_CONNECTIONS` slots are occupied and no
connection object is referenced by two distinct slots.  (The only
environment assumption, recorded on `Step.adv`, is that the stack hands
out a fresh connection object, never a pointer still stored in the pool.) -/
theorem pool_invariant (s : SysState) (hs : Reachable s) :
    s.conns.countP (fun c => c ≠ none) ≤ MAX_CONNECTIONS ∧
    ∀ (i j h : Nat), i ≠ j → s.conns[i]? = some (some h) →
      s.conns[j]? ≠ some (some h) := by
  obtain ⟨hlen, hnd⟩ := reachable_pool_inv s hs
  constructor
  · exact le_of_le_of_eq (List.countP_le_length _) hlen
  · intro i j h hij hi hj
    rcases Nat.lt_or_ge i j with hlt | hge
    · exact held_nodup_distinct_slots s.conns hnd i j h hlt hi hj
    · have hlt : j < i := by omega
      exact held_nodup_distinct_slots s.conns hnd j i h hlt hj hi

theorem pool_invariant_witness :
    ((device_found initState 5 (-40) 0 [⟨9, [68, 88, 67]⟩] ⟨0, 0, 7, 0⟩).1.conns.countP
      (fun c => c ≠ none) ≤ MAX_CONNECTIONS) ∧
    (device_found initState 5 (-40) 0 [⟨9, [68, 88, 67]⟩] ⟨0, 0, 7, 0⟩).1.conns[1]? ≠
      some (some 7) :=
  have hr : Reachable (device_found initState 5 (-40) 0 [⟨9, [68, 88, 67]⟩] ⟨0, 0, 7, 0⟩).1 :=
    Relation.ReflTransGen.refl.tail
      (Step.adv initState 5 (-40) 0 [⟨9, [68, 88, 67]⟩] ⟨0, 0, 7, 0⟩ (by decide))
  ⟨(pool_invariant _ hr).1, (pool_invariant _ hr).2 0 1 7 (by decide) (by decide)⟩

/-- C10: a connect-success event (`err = 0`) only logs: every slot and the
scan state are unchanged, whatever state the pool is in — in particular
when no slot holds the connection object, with no assertion or fatal
error (the handler is a total function). -/
theorem connected_success_no_state_change (s : SysState) (h : Nat) (e : Int) :
    connected s h 0 e = (s, [Action.logConnected h]) := by
  unfold connected
  simp

end BleCentral
